import Mathlib

/-!
Shallow embedding of the authentication/token-lifecycle core of the
`fastapi-di` repository (login, access-token refresh, logout), translated
from:

* `src/core/settings.py`            — JWT configuration with its defaults
* `src/utils/jwt_token_provider.py` — token issuance and validation
* `src/utils/token_dependencies.py` — the authenticated-endpoint dependency
* `src/repository/user/user_repository.py` and
  `src/repository/base_repository.py` — the user store operations the
  auth engine uses (lookup by username, lookup by primary key, refresh-token
  update)
* `src/service/auth/auth_service.py` — the auth engine itself
* `src/routers/v1/auth/auth_router.py` — the refresh endpoint's echo of the
  presented refresh token

Machine-level conventions: time is `Nat` (Unix-epoch seconds); a JWT string
is represented by the data that determines it — its payload claims together
with the signing key and algorithm — since JWT encoding is deterministic and
injective on (payload, key, algorithm), so equality of the representations
stands for byte-for-byte equality of the token strings. A non-JWT string is
the `malformed` constructor. Python raising of `HTTPException`s is modelled
with an explicit error type, and every service operation returns its result
together with the resulting store state (the `Transactional` decorator in
`src/core/transaction.py` rolls back on exception, so error paths leave the
store unchanged).
-/

namespace FastApiDi

/-- Settings from `src/core/settings.py` (JWT-related fields only; the
defaults `HS256`, `1`, `1440` are the source's defaults). -/
structure Settings where
  JWT_SECRET : String
  JWT_ALGORITHM : String := "HS256"
  JWT_EXPIRATION_MINUTES : Nat := 1
  JWT_REFRESH_EXPIRATION_MINUTES : Nat := 1440
deriving DecidableEq

/-- The payload of a JWT as built by `JwtTokenProvider`:
`{"sub": ..., "exp": ..., "scope": ...}`. The `sub` field is `Option` since
`payload.get("sub")` may be absent; `exp` is Unix-epoch seconds. A payload
with no scope claim is modelled with `scope` distinct from every scope the
code compares against. -/
structure Claims where
  sub : Option String
  exp : Nat
  scope : String
deriving DecidableEq

/-- A token string: either a well-formed JWT — determined by its payload,
signing key and algorithm — or some other (malformed) string. -/
inductive Token where
  | signed (claims : Claims) (key : String) (alg : String)
  | malformed (raw : String)
deriving DecidableEq

/-- Python truthiness of an optional string (`not x` is true for `None` and
for the empty string). -/
def pyTruthy : Option String → Bool
  | none => false
  | some s => s != ""

/-- Failure kinds of `jwt.decode` as caught in
`JwtTokenProvider.validate_token`: `ExpiredSignatureError` versus any other
`PyJWTError`. -/
inductive JwtError where
  | expired
  | invalid
deriving DecidableEq

/-- The domain errors the auth service raises
(`src/exception/user_exceptions.py`, `src/exception/auth_exceptions.py`):
`UserNotFoundException` (404) and the 401 unauthorized error with its
`detail` message. -/
inductive AuthError where
  | UserNotFoundException
  | UnauthorizedException (detail : String)
deriving DecidableEq

/-- `JwtTokenProvider.generate_access_token`: payload
`{sub: username, exp: now + JWT_EXPIRATION_MINUTES minutes, scope: "access"}`
signed with the configured secret and algorithm. -/
def generate_access_token (s : Settings) (now : Nat) (username : String) : Token :=
  .signed ⟨some username, now + 60 * s.JWT_EXPIRATION_MINUTES, "access"⟩
    s.JWT_SECRET s.JWT_ALGORITHM

/-- `JwtTokenProvider.generate_refresh_token`: payload
`{sub: username, exp: now + JWT_REFRESH_EXPIRATION_MINUTES minutes,
scope: "refresh"}` signed with the configured secret and algorithm. -/
def generate_refresh_token (s : Settings) (now : Nat) (username : String) : Token :=
  .signed ⟨some username, now + 60 * s.JWT_REFRESH_EXPIRATION_MINUTES, "refresh"⟩
    s.JWT_SECRET s.JWT_ALGORITHM

/-- `jwt.decode(token, settings.JWT_SECRET, algorithms=[settings.JWT_ALGORITHM])`:
signature verification happens before claim validation, so a wrong key or
algorithm (or a malformed string) fails `invalid` even if the expiry has also
passed; an `exp` at or before the current time fails `expired` (PyJWT treats
`exp <= now` as expired). -/
def jwt_decode (s : Settings) (now : Nat) : Token → Except JwtError Claims
  | .malformed _ => .error .invalid
  | .signed c key alg =>
    if key = s.JWT_SECRET ∧ alg = s.JWT_ALGORITHM then
      if c.exp ≤ now then .error .expired else .ok c
    else .error .invalid

/-- `JwtTokenProvider.validate_token`: `ExpiredSignatureError` becomes a 401
with detail "Token expired", any other `PyJWTError` a 401 with detail
"Invalid token". -/
def validate_token (s : Settings) (now : Nat) (token : Token) : Except AuthError Claims :=
  match jwt_decode s now token with
  | .ok payload => .ok payload
  | .error .expired => .error (.UnauthorizedException "Token expired")
  | .error .invalid => .error (.UnauthorizedException "Invalid token")

/-- `JwtTokenProvider.get_username_from_token`: validate, then extract `sub`;
a falsy subject (absent or empty) is a 401 "Invalid token: subject missing". -/
def get_username_from_token (s : Settings) (now : Nat) (token : Token) :
    Except AuthError String :=
  match validate_token s now token with
  | .error e => .error e
  | .ok payload =>
    match payload.sub with
    | none => .error (.UnauthorizedException "Invalid token: subject missing")
    | some username =>
      if username = "" then .error (.UnauthorizedException "Invalid token: subject missing")
      else .ok username

/-- `get_current_username` from `src/utils/token_dependencies.py`: validate
the bearer token, reject any scope other than "access" with a 401
"Invalid token scope", then delegate to `get_username_from_token`. -/
def get_current_username (s : Settings) (now : Nat) (token : Token) :
    Except AuthError String :=
  match validate_token s now token with
  | .error e => .error e
  | .ok payload =>
    if payload.scope ≠ "access" then .error (.UnauthorizedException "Invalid token scope")
    else get_username_from_token s now token

/-- A user row, from `src/domain/user_domain.py` / the `users` table.
`current_refresh_token` holds the single stored refresh-token string (or
NULL); `seq` is the primary key, `Option` because the dataclass defaults it
to `None`. -/
structure UserDomain where
  username : String
  email : String := ""
  type : String := "USER"
  status : String := "ACTIVE"
  password : Option String := none
  seq : Option Nat := none
  current_refresh_token : Option Token := none
deriving DecidableEq

/-- The user store: the list of user rows. -/
abbrev Db := List UserDomain

/-- `UserRepository.get_user_by_username`: first row whose username matches. -/
def get_user_by_username (db : Db) (username : String) : Option UserDomain :=
  db.find? (fun u => u.username == username)

/-- `BaseRepository.find_by_id` on the users table: first row whose primary
key equals `entity_id`. A `None` id (SQL `seq = NULL`) matches no row. -/
def find_by_id (db : Db) (entity_id : Option Nat) : Option UserDomain :=
  match entity_id with
  | none => none
  | some k => db.find? (fun u => u.seq == some k)

/-- `BaseRepository.update` specialised to the `current_refresh_token`
column: sets the column on the first row whose primary key is `k`. -/
def update_first (db : Db) (k : Nat) (tok : Option Token) : Db :=
  match db with
  | [] => []
  | u :: rest =>
    if u.seq == some k then { u with current_refresh_token := tok } :: rest
    else u :: update_first rest k tok

/-- `UserRepository.update_refresh_token`: looks the row up by primary key,
returns `false` (leaving the store untouched) if no row is found, otherwise
writes the new refresh-token value and returns `true`. -/
def update_refresh_token (db : Db) (user_seq : Option Nat) (refresh_token : Option Token) :
    Db × Bool :=
  match user_seq with
  | none => (db, false)
  | some k =>
    match find_by_id db (some k) with
    | none => (db, false)
    | some _ => (update_first db k refresh_token, true)

/-- Modelled from the spec: `src/utils/security.py` (`verify_password`) is
imported by the auth service but absent from `src/`; the spec describes the
Credential Verifier only as a pure function
`verify(plaintext, storedHash) -> bool` with no side effects, so the
embedding abstracts it as an arbitrary Boolean-valued function passed to
`login`. -/
abbrev VerifyPassword := String → String → Bool

/-- The token pair returned by `AuthService.login`
(`{"access_token": ..., "refresh_token": ...}`). -/
structure TokenPair where
  access_token : Token
  refresh_token : Token
deriving DecidableEq

/-- `AuthService.login`: look up by username (404 if absent); reject a falsy
stored hash or a failed verification with the same 401 "Invalid credentials";
otherwise issue both tokens, persist the refresh token via
`update_refresh_token` (whose Boolean result is ignored), and return the
pair. Error paths leave the store unchanged (`Transactional` rollback, and no
write precedes the checks). -/
def login (s : Settings) (verify_password : VerifyPassword) (now : Nat)
    (db : Db) (username password : String) : Except AuthError TokenPair × Db :=
  match get_user_by_username db username with
  | none => (.error .UserNotFoundException, db)
  | some user_domain =>
    if !pyTruthy user_domain.password
        || !verify_password password (user_domain.password.getD "") then
      (.error (.UnauthorizedException "Invalid credentials"), db)
    else
      let access_token := generate_access_token s now user_domain.username
      let refresh_token := generate_refresh_token s now user_domain.username
      let updated := update_refresh_token db user_domain.seq (some refresh_token)
      (.ok ⟨access_token, refresh_token⟩, updated.1)

/-- `AuthService.refresh_access_token`: validate the presented token
(propagating the 401s of `validate_token`), reject a falsy subject with 401
"Invalid refresh token: subject missing", look the user up by the subject
(404 if absent), reject a stored value different from the presented string
with 401 "Refresh token is invalid or has been logged out", and otherwise
return a freshly generated access token. No store write on any path. -/
def refresh_access_token (s : Settings) (now : Nat) (db : Db) (refresh_token : Token) :
    Except AuthError Token × Db :=
  match validate_token s now refresh_token with
  | .error e => (.error e, db)
  | .ok payload =>
    if !pyTruthy payload.sub then
      (.error (.UnauthorizedException "Invalid refresh token: subject missing"), db)
    else
      match get_user_by_username db (payload.sub.getD "") with
      | none => (.error .UserNotFoundException, db)
      | some user_domain =>
        if user_domain.current_refresh_token ≠ some refresh_token then
          (.error (.UnauthorizedException "Refresh token is invalid or has been logged out"), db)
        else
          (.ok (generate_access_token s now user_domain.username), db)

/-- `AuthService.logout`: look up by username (404 if absent), reject a
presented value different from the stored one with 401
"Refresh token mismatch", otherwise clear the stored refresh token to NULL
(the Boolean result of `update_refresh_token` is again ignored). The
presented value is `Option Token` because Python compares the two values with
plain `!=`, under which a `None` presented value equals a `None` stored
value. -/
def logout (db : Db) (username : String) (refresh_token : Option Token) :
    Except AuthError Unit × Db :=
  match get_user_by_username db username with
  | none => (.error .UserNotFoundException, db)
  | some user_domain =>
    if user_domain.current_refresh_token ≠ refresh_token then
      (.error (.UnauthorizedException "Refresh token mismatch"), db)
    else
      let updated := update_refresh_token db user_domain.seq none
      (.ok (), updated.1)

/-- The refresh endpoint's response body
(`TokenResponseDto(access_token=..., refresh_token=...)`). -/
structure TokenResponseDto where
  access_token : Token
  refresh_token : Token
deriving DecidableEq

/-- `refresh_access_token` route in `src/routers/v1/auth/auth_router.py`:
calls the service and, on success, returns the new access token together with
the presented refresh token echoed back unchanged. -/
def refresh_access_token_endpoint (s : Settings) (now : Nat) (db : Db)
    (refresh_token : Token) : Except AuthError TokenResponseDto × Db :=
  match refresh_access_token s now db refresh_token with
  | (.error e, db2) => (.error e, db2)
  | (.ok new_access_token, db2) =>
    (.ok ⟨new_access_token, refresh_token⟩, db2)

/-! Helper lemmas and concrete data shared by the developments below. -/

/-- A row returned by a username lookup carries that username. -/
lemma username_of_find {db : Db} {un : String} {u : UserDomain}
    (h : get_user_by_username db un = some u) : u.username = un := by
  unfold get_user_by_username at h
  have hp := List.find?_some h
  simpa using hp

/-- Concrete settings used to instantiate the universally quantified
theorems: the source's default algorithm and TTLs. -/
def sW : Settings := { JWT_SECRET := "top-secret" }

/-- Concrete verifier instance (the embedding treats the verifier as an
arbitrary Boolean function; this one accepts everything). -/
def verifyW : VerifyPassword := fun _ _ => true

/-- Concrete pre-seeded user row. -/
def aliceW : UserDomain :=
  { username := "alice", password := some "HASH", seq := some 1 }

/-- C4: Login fails `UserNotFound` when the username is absent (for every
verifier, so before any credential check); with a user present it fails
`Unauthorized "Invalid credentials"` both when the stored hash is falsy and
when verification returns false (the identical error in both sub-cases); and
every failing login leaves the store unchanged. -/
theorem C4_login_failure_spec (s : Settings) (verify : VerifyPassword) (now : Nat)
    (db : Db) (username password : String) :
    (get_user_by_username db username = none →
      login s verify now db username password = (.error .UserNotFoundException, db)) ∧
    (∀ user, get_user_by_username db username = some user →
      pyTruthy user.password = false →
      login s verify now db username password
        = (.error (.UnauthorizedException "Invalid credentials"), db)) ∧
    (∀ user hash, get_user_by_username db username = some user →
      user.password = some hash → hash ≠ "" → verify password hash = false →
      login s verify now db username password
        = (.error (.UnauthorizedException "Invalid credentials"), db)) ∧
    (∀ e db2, login s verify now db username password = (.error e, db2) → db2 = db) := by
  refine ⟨?_, ?_, ?_, ?_⟩
  · intro h
    simp [login, h]
  · intro user hu hp
    simp [login, hu, hp]
  · intro user hash hu hph hne hv
    simp [login, hu, hph, pyTruthy, hne, hv]
  · intro e db2 hl
    unfold login at hl
    cases hfind : get_user_by_username db username with
    | none =>
      rw [hfind] at hl
      simp at hl
      exact hl.2.symm
    | some user =>
      rw [hfind] at hl
      by_cases hc : (!pyTruthy user.password
          || !verify password (user.password.getD "")) = true
      · simp [hc] at hl
        exact hl.2.symm
      · simp [hc] at hl

/-- Witness for C4 at a concrete input: logging in as an unknown user fails
`UserNotFound` and leaves the (empty) store unchanged. -/
theorem C4_witness :
    login sW verifyW 0 [] "ghost" "pw" = (.error .UserNotFoundException, []) :=
  (C4_login_failure_spec sW verifyW 0 [] "ghost" "pw").1 rfl

/-- C6: RefreshAccessToken never writes to the store — the resulting store
equals the input store in every outcome, at the service and at the endpoint —
and on success it returns a freshly issued access token, the endpoint echoing
the presented refresh token back unchanged. -/
theorem C6_refresh_is_read_only (s : Settings) (now : Nat) (db : Db) (tok : Token) :
    (refresh_access_token s now db tok).2 = db ∧
    (∀ t, (refresh_access_token s now db tok).1 = .ok t →
      ∃ u, t = generate_access_token s now u) ∧
    (refresh_access_token_endpoint s now db tok).2 = db ∧
    (∀ r, (refresh_access_token_endpoint s now db tok).1 = .ok r →
      r.refresh_token = tok) := by
  have hframe : (refresh_access_token s now db tok).2 = db := by
    unfold refresh_access_token
    split
    · rfl
    · split
      · rfl
      · split
        · rfl
        · split
          · rfl
          · rfl
  refine ⟨hframe, ?_, ?_, ?_⟩
  · intro t ht
    unfold refresh_access_token at ht
    split at ht
    · simp at ht
    · split at ht
      · simp at ht
      · split at ht
        · simp at ht
        · split at ht
          · simp at ht
          · simp at ht
            exact ⟨_, ht.symm⟩
  · unfold refresh_access_token_endpoint
    split
    · next e db2 heq =>
      rw [heq] at hframe
      exact hframe
    · next t db2 heq =>
      rw [heq] at hframe
      exact hframe
  · intro r hr
    unfold refresh_access_token_endpoint at hr
    split at hr
    · simp at hr
    · simp at hr
      rw [← hr]

/-- Witness for C6 at a concrete input: a malformed token fails and the store
is untouched; vacuously there is no successful result. -/
theorem C6_witness :
    (refresh_access_token sW 0 [aliceW] (.malformed "junk")).2 = [aliceW] ∧
    (∀ r, (refresh_access_token_endpoint sW 0 [aliceW] (.malformed "junk")).1 = .ok r →
      r.refresh_token = .malformed "junk") := by
  refine ⟨(C6_refresh_is_read_only sW 0 [aliceW] (.malformed "junk")).1, ?_⟩
  exact (C6_refresh_is_read_only sW 0 [aliceW] (.malformed "junk")).2.2.2

/-- C8: the codec fails `Expired` exactly when a correctly signed token's
`exp` has passed; any wrong key, wrong algorithm or malformed string fails
`Invalid`; and a refresh token issued with TTL = 0 fails `Expired`, which
`RefreshAccessToken` surfaces as the 401 "Token expired". -/
theorem C8_codec_failure_taxonomy (s : Settings) (now : Nat) :
    (∀ c, jwt_decode s now (.signed c s.JWT_SECRET s.JWT_ALGORITHM)
        = .error .expired ↔ c.exp ≤ now) ∧
    (∀ c key alg, key ≠ s.JWT_SECRET ∨ alg ≠ s.JWT_ALGORITHM →
      jwt_decode s now (.signed c key alg) = .error .invalid) ∧
    (∀ raw, jwt_decode s now (.malformed raw) = .error .invalid) ∧
    (∀ username db, s.JWT_REFRESH_EXPIRATION_MINUTES = 0 →
      jwt_decode s now (generate_refresh_token s now username) = .error .expired ∧
      refresh_access_token s now db (generate_refresh_token s now username)
        = (.error (.UnauthorizedException "Token expired"), db)) := by
  refine ⟨?_, ?_, ?_, ?_⟩
  · intro c
    by_cases he : c.exp ≤ now <;> simp [jwt_decode, he]
  · intro c key alg h
    have hn : ¬(key = s.JWT_SECRET ∧ alg = s.JWT_ALGORITHM) := by tauto
    simp [jwt_decode, hn]
  · intro raw
    simp [jwt_decode]
  · intro username db h0
    have hd : jwt_decode s now (generate_refresh_token s now username)
        = .error .expired := by
      simp [jwt_decode, generate_refresh_token, h0]
    exact ⟨hd, by simp [refresh_access_token, validate_token, hd]⟩

/-- Witness for C8 at a concrete input: with a refresh TTL of 0, a
just-issued refresh token is already expired and refresh rejects it as 401
"Token expired". -/
theorem C8_witness :
    jwt_decode { JWT_SECRET := "top-secret", JWT_REFRESH_EXPIRATION_MINUTES := 0 } 7
        (generate_refresh_token
          { JWT_SECRET := "top-secret", JWT_REFRESH_EXPIRATION_MINUTES := 0 } 7 "alice")
      = .error .expired ∧
    refresh_access_token { JWT_SECRET := "top-secret", JWT_REFRESH_EXPIRATION_MINUTES := 0 } 7
        [aliceW]
        (generate_refresh_token
          { JWT_SECRET := "top-secret", JWT_REFRESH_EXPIRATION_MINUTES := 0 } 7 "alice")
      = (.error (.UnauthorizedException "Token expired"), [aliceW]) :=
  (C8_codec_failure_taxonomy
    { JWT_SECRET := "top-secret", JWT_REFRESH_EXPIRATION_MINUTES := 0 } 7).2.2.2
    "alice" [aliceW] rfl

/-- C10: with the user present, Logout with a null presented token succeeds
when the stored value is null (plain equality: None equals None), and Logout
fails 401 "Refresh token mismatch" exactly when the presented and stored
values differ; presenting exactly the stored value always succeeds. -/
theorem C10_logout_null_token_match (db : Db) (username : String) (user : UserDomain)
    (hfind : get_user_by_username db username = some user) :
    (user.current_refresh_token = none → (logout db username none).1 = .ok ()) ∧
    (∀ tok : Option Token,
      ((logout db username tok).1
          = .error (.UnauthorizedException "Refresh token mismatch")
        ↔ user.current_refresh_token ≠ tok)) ∧
    ((logout db username user.current_refresh_token).1 = .ok ()) := by
  refine ⟨?_, ?_, ?_⟩
  · intro h
    simp [logout, hfind, h]
  · intro tok
    by_cases h : user.current_refresh_token = tok <;> simp [logout, hfind, h]
  · simp [logout, hfind]

/-- Witness for C10 at a concrete input: a seeded user with no stored refresh
token can log out with a null token. -/
theorem C10_witness : (logout [aliceW] "alice" none).1 = .ok () :=
  (C10_logout_null_token_match [aliceW] "alice" aliceW rfl).1 rfl

/-- C2: the refresh validation sequence and its error mapping — codec failure
first (`Expired`/`Invalid` surfaced as the 401s "Token expired"/"Invalid
token"), then falsy subject (401 "Invalid refresh token: subject missing"),
then unknown user (`UserNotFound`), then stored-value inequality (401
"Refresh token is invalid or has been logged out", including a null stored
value), and success only past all four checks; each clause fixes the outcome
whatever the later checks would say, so the checks fail fast in exactly this
order. -/
theorem C2_refresh_check_order (s : Settings) (now : Nat) (db : Db) (tok : Token) :
    (∀ e, jwt_decode s now tok = .error e →
      refresh_access_token s now db tok
        = (.error (.UnauthorizedException
            (match e with | .expired => "Token expired" | .invalid => "Invalid token")), db)) ∧
    (∀ payload, jwt_decode s now tok = .ok payload → pyTruthy payload.sub = false →
      refresh_access_token s now db tok
        = (.error (.UnauthorizedException "Invalid refresh token: subject missing"), db)) ∧
    (∀ payload u', jwt_decode s now tok = .ok payload → payload.sub = some u' → u' ≠ "" →
      get_user_by_username db u' = none →
      refresh_access_token s now db tok = (.error .UserNotFoundException, db)) ∧
    (∀ payload u' user, jwt_decode s now tok = .ok payload → payload.sub = some u' → u' ≠ "" →
      get_user_by_username db u' = some user →
      user.current_refresh_token ≠ some tok →
      refresh_access_token s now db tok
        = (.error (.UnauthorizedException "Refresh token is invalid or has been logged out"),
           db)) ∧
    (∀ payload u' user, jwt_decode s now tok = .ok payload → payload.sub = some u' → u' ≠ "" →
      get_user_by_username db u' = some user →
      user.current_refresh_token = some tok →
      refresh_access_token s now db tok
        = (.ok (generate_access_token s now user.username), db)) := by
  refine ⟨?_, ?_, ?_, ?_, ?_⟩
  · intro e he
    cases e <;> simp [refresh_access_token, validate_token, he]
  · intro payload hd hs
    simp [refresh_access_token, validate_token, hd, hs]
  · intro payload u' hd hsub hne hfind
    simp [refresh_access_token, validate_token, hd, hsub, pyTruthy, hne, hfind]
  · intro payload u' user hd hsub hne hfound hmm
    simp [refresh_access_token, validate_token, hd, hsub, pyTruthy, hne, hfound, hmm]
  · intro payload u' user hd hsub hne hfound heq
    simp [refresh_access_token, validate_token, hd, hsub, pyTruthy, hne, hfound, heq]

/-- Witness for C2 at a concrete input: a malformed token string is rejected
as the 401 "Invalid token" before any other check runs. -/
theorem C2_witness :
    refresh_access_token sW 3 [aliceW] (.malformed "garbage")
      = (.error (.UnauthorizedException "Invalid token"), [aliceW]) :=
  (C2_refresh_check_order sW 3 [aliceW] (.malformed "garbage")).1 .invalid rfl

/-- C7: the authenticated-endpoint dependency rejects any token whose scope
is not "access" with the 401 "Invalid token scope", even when its signature
is valid and it is unexpired; and an access-scoped token presented to
RefreshAccessToken never succeeds whenever the subject's stored refresh token
is null or refresh-scoped (as every stored token written by the code is). -/
theorem C7_scope_confusion_rejection (s : Settings) (now : Nat) (db : Db) :
    (∀ c, c.scope ≠ "access" → now < c.exp →
      get_current_username s now (.signed c s.JWT_SECRET s.JWT_ALGORITHM)
        = .error (.UnauthorizedException "Invalid token scope")) ∧
    (∀ t0 username user, get_user_by_username db username = some user →
      (user.current_refresh_token = none ∨
       ∃ c key alg, user.current_refresh_token = some (.signed c key alg) ∧
         c.scope = "refresh") →
      ∃ e, (refresh_access_token s now db (generate_access_token s t0 username)).1
        = .error e) := by
  constructor
  · intro c hscope hexp
    have hne : ¬ c.exp ≤ now := not_le.mpr hexp
    simp [get_current_username, validate_token, jwt_decode, hne, hscope]
  · intro t0 username user hfind hstored
    by_cases hexp : t0 + 60 * s.JWT_EXPIRATION_MINUTES ≤ now
    · exact ⟨.UnauthorizedException "Token expired",
        by simp [refresh_access_token, validate_token, jwt_decode,
          generate_access_token, hexp]⟩
    · by_cases hu : username = ""
      · exact ⟨.UnauthorizedException "Invalid refresh token: subject missing",
          by simp [refresh_access_token, validate_token, jwt_decode,
            generate_access_token, hexp, pyTruthy, hu]⟩
      · have hneq : user.current_refresh_token
            ≠ some (generate_access_token s t0 username) := by
          rcases hstored with h | ⟨c, key, alg, hc, hs2⟩
          · rw [h]
            simp
          · rw [hc]
            simp [generate_access_token]
            rintro rfl - -
            simp at hs2
        have hneq' : user.current_refresh_token
            ≠ some (Token.signed
                ⟨some username, t0 + 60 * s.JWT_EXPIRATION_MINUTES, "access"⟩
                s.JWT_SECRET s.JWT_ALGORITHM) := by
          simpa [generate_access_token] using hneq
        exact ⟨.UnauthorizedException "Refresh token is invalid or has been logged out",
          by simp [refresh_access_token, validate_token, jwt_decode,
            generate_access_token, hexp, pyTruthy, hu, hfind, hneq']⟩

/-- Witness for C7 at a concrete input: a valid, unexpired refresh-scoped
token is rejected by the access-only endpoint dependency. -/
theorem C7_witness :
    get_current_username sW 3
        (.signed ⟨some "alice", 100, "refresh"⟩ sW.JWT_SECRET sW.JWT_ALGORITHM)
      = .error (.UnauthorizedException "Invalid token scope") :=
  (C7_scope_confusion_rejection sW 3 []).1 ⟨some "alice", 100, "refresh"⟩
    (by decide) (by decide)

/-- Concrete user row whose primary key is unset, so the refresh-token
persistence write inside login finds no row to update. -/
def bobW : UserDomain := { username := "bob", password := some "HASH", seq := none }

/-- C9: login never checks the Boolean result of `update_refresh_token` —
when the row lookup inside the persistence call finds no user, the update
reports `false` and leaves the store unchanged, yet login still returns
success with both tokens, and the returned refresh token can never pass the
stored-value equality check in RefreshAccessToken. -/
theorem C9_login_ignores_persistence_result (s : Settings) (verify : VerifyPassword)
    (now t2 : Nat) (db : Db) (username password : String) (user : UserDomain)
    (hfind : get_user_by_username db username = some user)
    (hpw : pyTruthy user.password = true)
    (hv : verify password (user.password.getD "") = true)
    (hmiss : find_by_id db user.seq = none) :
    login s verify now db username password
      = (.ok ⟨generate_access_token s now user.username,
              generate_refresh_token s now user.username⟩, db) ∧
    update_refresh_token db user.seq (some (generate_refresh_token s now user.username))
      = (db, false) ∧
    (user.current_refresh_token ≠ some (generate_refresh_token s now user.username) →
      ∃ e, (refresh_access_token s t2 db
              (generate_refresh_token s now user.username)).1 = .error e) := by
  have huser : user.username = username := username_of_find hfind
  have hupd : ∀ tok, update_refresh_token db user.seq tok = (db, false) := by
    intro tok
    cases hseq : user.seq with
    | none => simp [update_refresh_token]
    | some k =>
      rw [hseq] at hmiss
      simp [update_refresh_token, hmiss]
  refine ⟨?_, hupd _, ?_⟩
  · simp [login, hfind, hpw, hv, hupd]
  · intro hneq
    by_cases hexp : now + 60 * s.JWT_REFRESH_EXPIRATION_MINUTES ≤ t2
    · exact ⟨.UnauthorizedException "Token expired",
        by simp [refresh_access_token, validate_token, jwt_decode,
          generate_refresh_token, hexp]⟩
    · by_cases hu : user.username = ""
      · exact ⟨.UnauthorizedException "Invalid refresh token: subject missing",
          by simp [refresh_access_token, validate_token, jwt_decode,
            generate_refresh_token, hexp, pyTruthy, hu]⟩
      · have hfind2 : get_user_by_username db user.username = some user := by
          rw [huser]
          exact hfind
        have hneq' : user.current_refresh_token
            ≠ some (Token.signed
                ⟨some user.username, now + 60 * s.JWT_REFRESH_EXPIRATION_MINUTES, "refresh"⟩
                s.JWT_SECRET s.JWT_ALGORITHM) := by
          simpa [generate_refresh_token] using hneq
        exact ⟨.UnauthorizedException "Refresh token is invalid or has been logged out",
          by simp [refresh_access_token, validate_token, jwt_decode,
            generate_refresh_token, hexp, pyTruthy, hu, hfind2, hneq']⟩

/-- Witness for C9 at a concrete input: a row whose primary key is unset —
login succeeds with both tokens while the store is left unchanged and the
persistence call reports `false`. -/
theorem C9_witness :
    login sW verifyW 5 [bobW] "bob" "pw"
      = (.ok ⟨generate_access_token sW 5 "bob", generate_refresh_token sW 5 "bob"⟩,
         [bobW]) ∧
    update_refresh_token [bobW] bobW.seq (some (generate_refresh_token sW 5 "bob"))
      = ([bobW], false) :=
  ⟨(C9_login_ignores_persistence_result sW verifyW 5 0 [bobW] "bob" "pw" bobW
      rfl rfl rfl rfl).1,
   (C9_login_ignores_persistence_result sW verifyW 5 0 [bobW] "bob" "pw" bobW
      rfl rfl rfl rfl).2.1⟩

/-- C3: login with a pre-seeded user whose stored hash verifies returns two
distinct well-formed signed tokens; validating the access token yields scope
"access" and validating the refresh token yields scope "refresh", both with
the username as subject and with `exp` equal to issuance time plus the
token's own configured TTL; the source's setting defaults are 1 minute
(access) and 1440 minutes (refresh). -/
theorem C3_login_round_trip (s : Settings) (verify : VerifyPassword)
    (a hash password : String) (k now : Nat)
    (hhash : hash ≠ "") (hv : verify password hash = true)
    (hacc : 0 < s.JWT_EXPIRATION_MINUTES) (href : 0 < s.JWT_REFRESH_EXPIRATION_MINUTES) :
    login s verify now [{ username := a, password := some hash, seq := some k }] a password
      = (.ok ⟨generate_access_token s now a, generate_refresh_token s now a⟩,
         [{ username := a, password := some hash, seq := some k,
            current_refresh_token := some (generate_refresh_token s now a) }]) ∧
    generate_access_token s now a ≠ generate_refresh_token s now a ∧
    validate_token s now (generate_access_token s now a)
      = .ok ⟨some a, now + 60 * s.JWT_EXPIRATION_MINUTES, "access"⟩ ∧
    validate_token s now (generate_refresh_token s now a)
      = .ok ⟨some a, now + 60 * s.JWT_REFRESH_EXPIRATION_MINUTES, "refresh"⟩ ∧
    (∃ c, generate_access_token s now a = .signed c s.JWT_SECRET s.JWT_ALGORITHM) ∧
    (∃ c, generate_refresh_token s now a = .signed c s.JWT_SECRET s.JWT_ALGORITHM) ∧
    Settings.JWT_EXPIRATION_MINUTES { JWT_SECRET := s.JWT_SECRET } = 1 ∧
    Settings.JWT_REFRESH_EXPIRATION_MINUTES { JWT_SECRET := s.JWT_SECRET } = 1440 := by
  refine ⟨?_, ?_, ?_, ?_, ⟨_, rfl⟩, ⟨_, rfl⟩, rfl, rfl⟩
  · simp [login, get_user_by_username, List.find?, pyTruthy, hhash, hv,
      update_refresh_token, find_by_id, update_first]
  · simp [generate_access_token, generate_refresh_token]
  · have h1 : ¬ (now + 60 * s.JWT_EXPIRATION_MINUTES ≤ now) := by omega
    simp [validate_token, jwt_decode, generate_access_token, h1]
  · have h2 : ¬ (now + 60 * s.JWT_REFRESH_EXPIRATION_MINUTES ≤ now) := by omega
    simp [validate_token, jwt_decode, generate_refresh_token, h2]

/-- Witness for C3 at a concrete input: the full login success with both
tokens issued and the refresh token persisted. -/
theorem C3_witness :
    login sW verifyW 0 [{ username := "alice", password := some "HASH", seq := some 1 }]
        "alice" "pw"
      = (.ok ⟨generate_access_token sW 0 "alice", generate_refresh_token sW 0 "alice"⟩,
         [{ username := "alice", password := some "HASH", seq := some 1,
            current_refresh_token := some (generate_refresh_token sW 0 "alice") }]) :=
  (C3_login_round_trip sW verifyW "alice" "HASH" "pw" 1 0
    (by decide) rfl (by decide) (by decide)).1

/-- C1: the single-active-refresh-token scenario — a first login stores
refresh token A, a second login (at a different issuance time, so the token
strings differ) overwrites the stored value with refresh token B,
after which refreshing with A fails the 401 stored-value mismatch while
refreshing with B succeeds. -/
theorem C1_single_active_refresh_token (s : Settings) (verify : VerifyPassword)
    (a hash password : String) (k t1 t2 t3 : Nat)
    (ha : a ≠ "") (hhash : hash ≠ "") (hv : verify password hash = true)
    (ht : t1 ≠ t2)
    (h3A : t3 < t1 + 60 * s.JWT_REFRESH_EXPIRATION_MINUTES)
    (h3B : t3 < t2 + 60 * s.JWT_REFRESH_EXPIRATION_MINUTES) :
    login s verify t1 [{ username := a, password := some hash, seq := some k }] a password
      = (.ok ⟨generate_access_token s t1 a, generate_refresh_token s t1 a⟩,
         [{ username := a, password := some hash, seq := some k,
            current_refresh_token := some (generate_refresh_token s t1 a) }]) ∧
    login s verify t2
        [{ username := a, password := some hash, seq := some k,
           current_refresh_token := some (generate_refresh_token s t1 a) }] a password
      = (.ok ⟨generate_access_token s t2 a, generate_refresh_token s t2 a⟩,
         [{ username := a, password := some hash, seq := some k,
            current_refresh_token := some (generate_refresh_token s t2 a) }]) ∧
    generate_refresh_token s t1 a ≠ generate_refresh_token s t2 a ∧
    refresh_access_token s t3
        [{ username := a, password := some hash, seq := some k,
           current_refresh_token := some (generate_refresh_token s t2 a) }]
        (generate_refresh_token s t1 a)
      = (.error (.UnauthorizedException "Refresh token is invalid or has been logged out"),
         [{ username := a, password := some hash, seq := some k,
            current_refresh_token := some (generate_refresh_token s t2 a) }]) ∧
    refresh_access_token s t3
        [{ username := a, password := some hash, seq := some k,
           current_refresh_token := some (generate_refresh_token s t2 a) }]
        (generate_refresh_token s t2 a)
      = (.ok (generate_access_token s t3 a),
         [{ username := a, password := some hash, seq := some k,
            current_refresh_token := some (generate_refresh_token s t2 a) }]) := by
  refine ⟨?_, ?_, ?_, ?_, ?_⟩
  · simp [login, get_user_by_username, List.find?, pyTruthy, hhash, hv,
      update_refresh_token, find_by_id, update_first]
  · simp [login, get_user_by_username, List.find?, pyTruthy, hhash, hv,
      update_refresh_token, find_by_id, update_first]
  · simp [generate_refresh_token]
    omega
  · have hexpA : ¬ (t1 + 60 * s.JWT_REFRESH_EXPIRATION_MINUTES ≤ t3) := by omega
    have hts : ¬ (t2 + 60 * s.JWT_REFRESH_EXPIRATION_MINUTES
        = t1 + 60 * s.JWT_REFRESH_EXPIRATION_MINUTES) := by omega
    simp [refresh_access_token, validate_token, jwt_decode, generate_refresh_token,
      generate_access_token, pyTruthy, ha, get_user_by_username, List.find?, hexpA, hts]
  · have hexpB : ¬ (t2 + 60 * s.JWT_REFRESH_EXPIRATION_MINUTES ≤ t3) := by omega
    simp [refresh_access_token, validate_token, jwt_decode, generate_refresh_token,
      generate_access_token, pyTruthy, ha, get_user_by_username, List.find?, hexpB]

/-- Witness for C1 at a concrete input: after logins at times 0 and 1, the
first refresh token is rejected at time 2 with the stored-value mismatch. -/
theorem C1_witness :
    refresh_access_token sW 2
        [{ username := "alice", password := some "HASH", seq := some 1,
           current_refresh_token := some (generate_refresh_token sW 1 "alice") }]
        (generate_refresh_token sW 0 "alice")
      = (.error (.UnauthorizedException "Refresh token is invalid or has been logged out"),
         [{ username := "alice", password := some "HASH", seq := some 1,
            current_refresh_token := some (generate_refresh_token sW 1 "alice") }]) :=
  (C1_single_active_refresh_token sW verifyW "alice" "HASH" "pw" 1 0 1 2
    (by decide) (by decide) rfl (by decide) (by decide) (by decide)).2.2.2.1

/-- C5: logout fails `UserNotFound` for an absent user and the 401
"Refresh token mismatch" when the presented value differs from the stored
one; and the P5 scenario — after a login stores refresh token R, logging out
with R succeeds and clears the stored value to null, after which refreshing
with R fails the 401 stored-value mismatch and a second logout with R also
fails the 401 mismatch (against null): logout is not idempotent. -/
theorem C5_logout_invalidation (s : Settings) (verify : VerifyPassword)
    (a hash password : String) (k t1 t2 : Nat) (db : Db) (un : String) (tok : Option Token)
    (ha : a ≠ "") (hhash : hash ≠ "") (hv : verify password hash = true)
    (h2 : t2 < t1 + 60 * s.JWT_REFRESH_EXPIRATION_MINUTES) :
    (get_user_by_username db un = none →
      logout db un tok = (.error .UserNotFoundException, db)) ∧
    (∀ user, get_user_by_username db un = some user → user.current_refresh_token ≠ tok →
      logout db un tok = (.error (.UnauthorizedException "Refresh token mismatch"), db)) ∧
    login s verify t1 [{ username := a, password := some hash, seq := some k }] a password
      = (.ok ⟨generate_access_token s t1 a, generate_refresh_token s t1 a⟩,
         [{ username := a, password := some hash, seq := some k,
            current_refresh_token := some (generate_refresh_token s t1 a) }]) ∧
    logout [{ username := a, password := some hash, seq := some k,
              current_refresh_token := some (generate_refresh_token s t1 a) }] a
        (some (generate_refresh_token s t1 a))
      = (.ok (), [{ username := a, password := some hash, seq := some k }]) ∧
    refresh_access_token s t2 [{ username := a, password := some hash, seq := some k }]
        (generate_refresh_token s t1 a)
      = (.error (.UnauthorizedException "Refresh token is invalid or has been logged out"),
         [{ username := a, password := some hash, seq := some k }]) ∧
    logout [{ username := a, password := some hash, seq := some k }] a
        (some (generate_refresh_token s t1 a))
      = (.error (.UnauthorizedException "Refresh token mismatch"),
         [{ username := a, password := some hash, seq := some k }]) := by
  refine ⟨?_, ?_, ?_, ?_, ?_, ?_⟩
  · intro h
    simp [logout, h]
  · intro user hu hne
    simp [logout, hu, hne]
  · simp [login, get_user_by_username, List.find?, pyTruthy, hhash, hv,
      update_refresh_token, find_by_id, update_first]
  · simp [logout, get_user_by_username, List.find?,
      update_refresh_token, find_by_id, update_first]
  · have hexp : ¬ (t1 + 60 * s.JWT_REFRESH_EXPIRATION_MINUTES ≤ t2) := by omega
    simp [refresh_access_token, validate_token, jwt_decode, generate_refresh_token,
      pyTruthy, ha, get_user_by_username, List.find?, hexp]
  · simp [logout, get_user_by_username, List.find?]

/-- Witness for C5 at a concrete input: logging out with the freshly stored
refresh token succeeds and clears the stored value back to null. -/
theorem C5_witness :
    logout [{ username := "alice", password := some "HASH", seq := some 1,
              current_refresh_token := some (generate_refresh_token sW 0 "alice") }] "alice"
        (some (generate_refresh_token sW 0 "alice"))
      = (.ok (), [{ username := "alice", password := some "HASH", seq := some 1 }]) :=
  (C5_logout_invalidation sW verifyW "alice" "HASH" "pw" 1 0 1 [] "x" none
    (by decide) (by decide) rfl (by decide)).2.2.2.1

end FastApiDi
